import Mathlib

/-!
Shallow embedding of the nomad-driver-systemd unit lifecycle engine
(src/systemd/driver.go, src/systemd/state.go).

Pure translation functions (`taskConfigToUnitOptions`, `deviceToUnitOptions`,
`mountToUnitOption`, `toTaskState`) are embedded directly.  Stateful
operations (`StartTask`, `WaitTask`, `InspectTask`) are embedded by passing
the registry state explicitly and by representing the results of the external
effects (filesystem writes, D-Bus calls, the subscription event stream) as
explicit inputs, so that each control path of the Go code corresponds to a
case of the Lean function.
-/

/-- One systemd unit directive, mirroring `unit.UnitOption` from
go-systemd: a (section, name, value) triple. -/
structure UnitOption where
  Section : String
  Name : String
  Value : String
deriving DecidableEq, Repr

/-- Mirrors `drivers.DeviceConfig`: a device exposed to the task. -/
structure DeviceConfig where
  HostPath : String
  TaskPath : String
  Permissions : String
deriving DecidableEq, Repr

/-- Mirrors `drivers.MountConfig`: a mount exposed to the task.  The Go
zero value of `Readonly` is `false`. -/
structure MountConfig where
  HostPath : String
  TaskPath : String
  Readonly : Bool
deriving DecidableEq, Repr

/-- Mirrors the fields of `drivers.LinuxResources` read by the builder. -/
structure LinuxResources where
  CPUShares : Int
  MemoryLimitBytes : Int
deriving DecidableEq, Repr

/-- Mirrors `drivers.Resources` (only the Linux part is read). -/
structure Resources where
  LinuxResources : LinuxResources
deriving DecidableEq, Repr

/-- Result of `cfg.TaskDir()`: the allocation directories of the task. -/
structure TaskDir where
  LocalDir : String
  SharedAllocDir : String
  SecretsDir : String
deriving DecidableEq, Repr

/-- The driver's own task configuration (`systemd.TaskConfig`): the systemd
unit name decoded from the raw driver config. -/
structure TaskConfig where
  Unit : String
deriving DecidableEq, Repr

deriving instance DecidableEq for Except

/-- Mirrors the fields of `drivers.TaskConfig` the driver reads.  `EnvList`
and `TaskDir` are methods in Go whose results we carry as fields, and
`rawDriverConfig` carries the outcome of `DecodeDriverConfig` (the msgpack
decoding itself is external code). -/
structure DriversTaskConfig where
  ID : String
  rawDriverConfig : Except String TaskConfig
  EnvList : List String
  Resources : Resources
  Devices : List DeviceConfig
  Mounts : List MountConfig
  User : String
  TaskDir : TaskDir
  StdoutPath : String
  StderrPath : String
deriving DecidableEq, Repr

/-- `cfg.DecodeDriverConfig(&driverConfig)`: decodes the raw driver config
into the driver's `TaskConfig`; the decoding is external, so its outcome is
the `rawDriverConfig` field. -/
def DecodeDriverConfig (cfg : DriversTaskConfig) : Except String TaskConfig :=
  cfg.rawDriverConfig

/-- `deviceToUnitOptions` (driver.go:344-357).  The Go function appends a
`BindPaths` and a `DeviceAllow` option to `opts` but then executes
`return nil`, so the list it built is discarded and every device contributes
zero directives.  The embedding keeps both: the discarded list is the local
`_opts`, and the returned value is the empty list, exactly as the source. -/
def deviceToUnitOptions (device : DeviceConfig) : List UnitOption :=
  let _opts : List UnitOption :=
    [⟨"Service", "BindPaths", device.HostPath ++ ":" ++ device.TaskPath⟩,
     ⟨"Service", "DeviceAllow", device.HostPath ++ " " ++ device.Permissions⟩]
  []

/-- The list `deviceToUnitOptions` builds into its local `opts` variable
before the erroneous `return nil` (driver.go:346-355): the two directives
the surrounding code intends each device to contribute. -/
def deviceToUnitOptionsBuilt (device : DeviceConfig) : List UnitOption :=
  [⟨"Service", "BindPaths", device.HostPath ++ ":" ++ device.TaskPath⟩,
   ⟨"Service", "DeviceAllow", device.HostPath ++ " " ++ device.Permissions⟩]

/-- `mountToUnitOption` (driver.go:358-370).  Note the branches as written
in the source: `Readonly` selects `BindPaths`, the writable case selects
`BindReadOnlyPaths`. -/
def mountToUnitOption (mount : MountConfig) : UnitOption :=
  let bindPath := if mount.Readonly then "BindPaths" else "BindReadOnlyPaths"
  ⟨"Service", bindPath, mount.HostPath ++ ":" ++ mount.TaskPath⟩

/-- `taskConfigToUnitOptions` (driver.go:225-300): the pure option builder,
appending in source order: Environment, CPUShares, MemoryLimit, the device
options, the explicit mount options, User, the three implicit task-directory
mounts (local, alloc, secrets), StandardOutput, StandardError. -/
def taskConfigToUnitOptions (cfg : DriversTaskConfig) : List UnitOption :=
  let env := String.intercalate " " cfg.EnvList
  let opts : List UnitOption := [⟨"Service", "Environment", env⟩]
  let opts := opts ++
    [⟨"Service", "CPUShares", toString cfg.Resources.LinuxResources.CPUShares⟩]
  let opts := opts ++
    [⟨"Service", "MemoryLimit", toString cfg.Resources.LinuxResources.MemoryLimitBytes⟩]
  let opts := opts ++ (cfg.Devices.map deviceToUnitOptions).flatten
  let opts := opts ++ cfg.Mounts.map mountToUnitOption
  let opts := opts ++ [⟨"Service", "User", cfg.User⟩]
  let taskDir := cfg.TaskDir
  let taskDirMounts : List MountConfig :=
    [⟨taskDir.LocalDir, "/local", false⟩,
     ⟨taskDir.SharedAllocDir, "/alloc", false⟩,
     ⟨taskDir.SecretsDir, "/secrets", false⟩]
  let opts := opts ++ taskDirMounts.map mountToUnitOption
  let opts := opts ++ [⟨"Service", "StandardOutput", "file:" ++ cfg.StdoutPath⟩]
  let opts := opts ++ [⟨"Service", "StandardError", "file:" ++ cfg.StderrPath⟩]
  opts

/-- `toTaskState` (driver.go:492-507): the fixed active-state to task-state
table, with the Go switch rendered as its ordered comparison chain. -/
inductive TaskState where
  | unknown
  | running
  | exited
deriving DecidableEq, Repr

def toTaskState (activeState : String) : TaskState :=
  if activeState = "activating" then .unknown
  else if activeState = "deactivating" then .unknown
  else if activeState = "failed" then .exited
  else if activeState = "active" then .running
  else if activeState = "inactive" then .exited
  else .unknown

/-- Mirrors `dbus.UnitStatus`: the fields the driver reads (name and
active-state) of one unit's status. -/
structure UnitStatus where
  Name : String
  ActiveState : String
deriving DecidableEq, Repr

/-- Mirrors `dbus.SubscriptionSet` as built in StartTask: the set of unit
names added with `Add`. -/
structure SubscriptionSet where
  units : List String
deriving DecidableEq, Repr

/-- Mirrors `drivers.TaskHandle` as used here: `NewTaskHandle(0)` followed
by `handle.Config = cfg`. -/
structure TaskHandle where
  Version : Int
  Config : DriversTaskConfig
deriving DecidableEq, Repr

/-- Mirrors `systemd.taskHandle` (state.go:7-10): the registry entry pairing
the orchestrator handle with the unit's subscription. -/
structure taskHandle where
  subscription : SubscriptionSet
  handle : TaskHandle
deriving DecidableEq, Repr

/-- `taskStore` (state.go:14-37): a typesafe adapter of `sync.Map`, modelled
as the map it implements.  `Load` on an absent key gives `(nil, false)`,
modelled as `none`; `Store` overwrites; `Delete` removes. -/
def taskStore : Type := String → Option taskHandle

/-- `newTaskStore` (state.go:18-20): the empty registry. -/
def newTaskStore : taskStore := fun _ => none

/-- `taskStore.Set` (state.go:22-24): `sync.Map.Store`, an overwrite. -/
def taskStore.Set (ts : taskStore) (id : String) (handle : taskHandle) : taskStore :=
  fun k => if k = id then some handle else ts k

/-- `taskStore.Get` (state.go:26-33): `sync.Map.Load`; `none` is the
`(nil, false)` not-found result. -/
def taskStore.Get (ts : taskStore) (id : String) : Option taskHandle :=
  ts id

/-- `taskStore.Delete` (state.go:35-37): `sync.Map.Delete`. -/
def taskStore.Delete (ts : taskStore) (id : String) : taskStore :=
  fun k => if k = id then none else ts k

/-- Errors the driver surfaces: the distinct `drivers.ErrTaskNotFound`, and
the formatted errors built with `fmt.Errorf`. -/
inductive DriverError where
  | errTaskNotFound
  | other (msg : String)
deriving DecidableEq, Repr

/-- The outcomes of the external effects StartTask performs, in source
order (driver.go:302-342): `os.MkdirAll`, `os.Create`, `io.Copy`,
`d.getConn`, `conn.StartUnit`.  Each is an input because the corresponding
Go call is external. -/
structure StartWorld where
  MkdirAll : Except String Unit
  Create : Except String Unit
  Copy : Except String Unit
  GetConn : Except String Unit
  StartUnit : Except String Unit
deriving DecidableEq, Repr

/-- `StartTask` (driver.go:302-342) with the registry passed explicitly:
decode the driver config, build the options, write the drop-in (mkdir,
create, copy), connect to D-Bus, start the unit — returning the error of
the first failing step with the registry unchanged — and only after a
successful start build the subscription and `Set` the handle under the
spec's ID. -/
def StartTask (w : StartWorld) (tasks : taskStore) (cfg : DriversTaskConfig) :
    Except String TaskHandle × taskStore :=
  match DecodeDriverConfig cfg with
  | .error e => (.error ("failed to decode driver config: " ++ e), tasks)
  | .ok driverConfig =>
    let handle : TaskHandle := ⟨0, cfg⟩
    let _opts := taskConfigToUnitOptions cfg
    let unitName := driverConfig.Unit
    match w.MkdirAll with
    | .error e => (.error ("Failed to write unit file override: " ++ e), tasks)
    | .ok _ =>
      match w.Create with
      | .error e => (.error ("Failed to write unit file override: " ++ e), tasks)
      | .ok _ =>
        match w.Copy with
        | .error e => (.error ("Failed to write unit file override: " ++ e), tasks)
        | .ok _ =>
          match w.GetConn with
          | .error e => (.error ("Failed to connect to dbus: " ++ e), tasks)
          | .ok _ =>
            match w.StartUnit with
            | .error e => (.error ("Failed to start unit: " ++ e), tasks)
            | .ok _ =>
              let subscription : SubscriptionSet := ⟨[unitName]⟩
              let h : taskHandle := ⟨subscription, handle⟩
              (.ok handle, tasks.Set cfg.ID h)

/-- Mirrors `drivers.ExitResult` as the driver builds it: only the `Err`
field is ever set; the zero value `ExitResult{}` sent for both terminal
states is `⟨none⟩`. -/
structure ExitResult where
  Err : Option String
deriving DecidableEq, Repr

/-- One arrival observed by WaitTask's stream-consuming goroutine
(driver.go:386-416).  `cancel` is the caller's `ctx.Done()` firing, `subErr`
a value on the subscription's error channel, `statuses` a snapshot from the
`unitStatus` channel (the Go `map[string]*UnitStatus`, as an association
list where an absent unit is the nil pointer).  `driverShutdown` is the
driver's own global context (`d.ctx`) being cancelled: the goroutine's
select has no case for it, so the loop does not wake and simply keeps
consuming — embedded as skipping the event. -/
inductive WaitEvent where
  | cancel
  | subErr (msg : String)
  | statuses (m : List (String × UnitStatus))
  | driverShutdown
deriving DecidableEq, Repr

/-- Go map lookup `statuses[unit]` on the snapshot: `none` is the nil
pointer for an absent key. -/
def lookupStatus : List (String × UnitStatus) → String → Option UnitStatus
  | [], _ => none
  | (k, v) :: rest, u => if k = u then some v else lookupStatus rest u

/-- What the goroutine did with the modelled event sequence: `emitted r`
means it sent exactly the one result `r` and returned (closing the
channel), `crash` the `panic` on a nil status, `exhausted` that the
modelled arrivals ran out with the loop still consuming. -/
inductive WaitOutcome where
  | emitted (r : ExitResult)
  | crash
  | exhausted
deriving DecidableEq, Repr

/-- The body of WaitTask's goroutine (driver.go:386-416) over an explicit
arrival sequence: caller cancellation sends `ctx.Err()`; a subscription
error sends a formatted error; a status snapshot looks the unit up (nil
panics), terminates with the empty `ExitResult{}` on `inactive` or on
`failed` (the switch as written sends the same empty result for both), and
ignores every other active-state, continuing the loop.  A `driverShutdown`
arrival is not in the select, so the loop continues past it. -/
def waitLoop (u : String) : List WaitEvent → WaitOutcome
  | [] => .exhausted
  | .cancel :: _ => .emitted ⟨some "context canceled"⟩
  | .subErr e :: _ => .emitted ⟨some ("Subscription error: " ++ e)⟩
  | .driverShutdown :: rest => waitLoop u rest
  | .statuses m :: rest =>
    match lookupStatus m u with
    | none => .crash
    | some status =>
      if status.ActiveState = "inactive" then .emitted ⟨none⟩
      else if status.ActiveState = "failed" then .emitted ⟨none⟩
      else waitLoop u rest

/-- A status snapshot carrying exactly the subscribed unit `u` in state
`s`, as the subscription set built by StartTask delivers. -/
def statusBatch (u : String) (s : String) : WaitEvent :=
  .statuses [(u, ⟨u, s⟩)]

/-- `WaitTask` (driver.go:372-418) with the registry and the arrival
sequence explicit: look the task up (missing → the distinct
`ErrTaskNotFound`, before any stream consumption), decode the driver
config, then consume the stream with `waitLoop` on the configured unit. -/
def WaitTask (tasks : taskStore) (taskID : String) (evts : List WaitEvent) :
    Except DriverError WaitOutcome :=
  match tasks.Get taskID with
  | none => .error .errTaskNotFound
  | some handle =>
    match DecodeDriverConfig handle.handle.Config with
    | .error e => .error (.other ("failed to decode driver config: " ++ e))
    | .ok driverConfig => .ok (waitLoop driverConfig.Unit evts)

/-- Mirrors the fields of `drivers.TaskStatus` InspectTask fills. -/
structure TaskStatus where
  Name : String
  ID : String
  State : TaskState
deriving DecidableEq, Repr

/-- The outcomes of the external calls InspectTask performs
(driver.go:463-490): `d.getConn` and `conn.ListUnitsByNames`.  A failing
query returns the error alongside a nil slice, modelled as the `error`
case. -/
structure InspectWorld where
  GetConn : Except String Unit
  ListUnitsByNames : Except String (List UnitStatus)
deriving DecidableEq, Repr

/-- `InspectTask` (driver.go:463-490).  The source checks
`DecodeDriverConfig` a second time where the `ListUnitsByNames` error
should be checked (driver.go:478, its message even reads "failed to get
unit status"), so a failed query is never surfaced: the nil slice flows on
to `statuses[0]`, which panics — modelled as the `none` result.  `some`
wraps what the Go function returns. -/
def InspectTask (w : InspectWorld) (tasks : taskStore) (taskID : String) :
    Option (Except DriverError TaskStatus) :=
  match tasks.Get taskID with
  | none => some (.error .errTaskNotFound)
  | some handle =>
    match w.GetConn with
    | .error e => some (.error (.other ("Failed to connect to dbus: " ++ e)))
    | .ok _ =>
      match DecodeDriverConfig handle.handle.Config with
      | .error e => some (.error (.other ("failed to decode driver config: " ++ e)))
      | .ok _ =>
        let statuses :=
          match w.ListUnitsByNames with
          | .ok ss => ss
          | .error _ => []
        match DecodeDriverConfig handle.handle.Config with
        | .error e => some (.error (.other ("failed to get unit status: " ++ e)))
        | .ok _ =>
          match statuses with
          | [] => none
          | status :: _ => some (.ok ⟨status.Name, taskID, toTaskState status.ActiveState⟩)

/-- The spec's scenario input: unit "webserver@1.service" with the single
writable mount host "/tmp/alloc" → task "/alloc", all other fields
concrete. -/
def cfgScenario : DriversTaskConfig :=
  ⟨"task1", .ok ⟨"webserver@1.service"⟩, [], ⟨⟨0, 0⟩⟩, [],
   [⟨"/tmp/alloc", "/alloc", false⟩], "",
   ⟨"/tmp/local", "/tmp/allocdir", "/tmp/secrets"⟩,
   "/tmp/stdout", "/tmp/stderr"⟩

/-- The registry entry StartTask stores for `cfgScenario`. -/
def hOne : taskHandle := ⟨⟨["webserver@1.service"]⟩, ⟨0, cfgScenario⟩⟩

/-- A registry holding exactly the scenario task under "task1". -/
def tasksOne : taskStore := newTaskStore.Set "task1" hOne

/-- An inspect world whose synchronous status query fails. -/
def wFailQuery : InspectWorld := ⟨.ok (), .error "dbus timeout"⟩

/-- An inspect world whose query reports the unit with active-state
"failed". -/
def wFailedState : InspectWorld := ⟨.ok (), .ok [⟨"webserver@1.service", "failed"⟩]⟩

/-- A start world in which every external step succeeds. -/
def wOk : StartWorld := ⟨.ok (), .ok (), .ok (), .ok (), .ok ()⟩

/-- A start world whose drop-in directory creation fails. -/
def wBadMkdir : StartWorld := ⟨.error "disk full", .ok (), .ok (), .ok (), .ok ()⟩

/-- A pre-existing registry entry for "task1" under a different unit. -/
def hOld : taskHandle := ⟨⟨["old.service"]⟩, ⟨0, cfgScenario⟩⟩

/-- A registry that already holds `hOld` for "task1". -/
def tasksOld : taskStore := newTaskStore.Set "task1" hOld

/-- The scenario input extended with one device, to expose the device
contribution to the builder output. -/
def cfgDevScenario : DriversTaskConfig :=
  ⟨"task1", .ok ⟨"webserver@1.service"⟩, [], ⟨⟨0, 0⟩⟩,
   [⟨"/dev/fuse", "/dev/fuse", "rwm"⟩],
   [⟨"/tmp/alloc", "/alloc", false⟩], "",
   ⟨"/tmp/local", "/tmp/allocdir", "/tmp/secrets"⟩,
   "/tmp/stdout", "/tmp/stderr"⟩

/-- Claim C1, counterexample: on the spec's own scenario — unit
"webserver@1.service", one writable mount host "/tmp/alloc" → task
"/alloc" — the builder's output contains no `BindPaths=/tmp/alloc:/alloc`
directive at all: the branches of `mountToUnitOption` are the reverse of
the claimed keying, so the writable mount is emitted under
`BindReadOnlyPaths`. -/
theorem mount_scenario_no_bindpaths :
    (⟨"Service", "BindPaths", "/tmp/alloc:/alloc"⟩ : UnitOption) ∉
      taskConfigToUnitOptions cfgScenario ∧
    mountToUnitOption ⟨"/tmp/alloc", "/alloc", false⟩ =
      ⟨"Service", "BindReadOnlyPaths", "/tmp/alloc:/alloc"⟩ := by
  constructor
  · decide
  · rfl

/-- Claim C1, amended: each mount (explicit or implicit task-directory
mount) contributes exactly one directive whose key is determined solely by
its read-only flag, but with the branches as the source writes them —
`BindPaths` when the mount is read-only and `BindReadOnlyPaths` when it is
writable; on the scenario input the writable mount therefore yields
`BindReadOnlyPaths=/tmp/alloc:/alloc`, followed (after the `User`
directive) by the three implicit task-directory mounts, each also a single
`BindReadOnlyPaths` directive. -/
theorem mountToUnitOption_keyed_inverted (mount : MountConfig) :
    mountToUnitOption mount =
      ⟨"Service", if mount.Readonly then "BindPaths" else "BindReadOnlyPaths",
       mount.HostPath ++ ":" ++ mount.TaskPath⟩ ∧
    taskConfigToUnitOptions cfgScenario =
      [⟨"Service", "Environment", ""⟩,
       ⟨"Service", "CPUShares", "0"⟩,
       ⟨"Service", "MemoryLimit", "0"⟩,
       ⟨"Service", "BindReadOnlyPaths", "/tmp/alloc:/alloc"⟩,
       ⟨"Service", "User", ""⟩,
       ⟨"Service", "BindReadOnlyPaths", "/tmp/local:/local"⟩,
       ⟨"Service", "BindReadOnlyPaths", "/tmp/allocdir:/alloc"⟩,
       ⟨"Service", "BindReadOnlyPaths", "/tmp/secrets:/secrets"⟩,
       ⟨"Service", "StandardOutput", "file:/tmp/stdout"⟩,
       ⟨"Service", "StandardError", "file:/tmp/stderr"⟩] :=
  ⟨rfl, rfl⟩

/-- Claim C2: contrary to the claim, a device contributes no directive at
all — `deviceToUnitOptions` builds the claimed `BindPaths` and
`DeviceAllow` pair into a local and then returns nil, so the builder's
output over a spec with a device equals the output without it.  The second
conjunct evaluates the discarded pair, which is exactly the two directives
the claim (and the surrounding code) intends. -/
theorem deviceToUnitOptions_discards_built :
    deviceToUnitOptions ⟨"/dev/fuse", "/dev/fuse", "rwm"⟩ = [] ∧
    deviceToUnitOptionsBuilt ⟨"/dev/fuse", "/dev/fuse", "rwm"⟩ =
      [⟨"Service", "BindPaths", "/dev/fuse:/dev/fuse"⟩,
       ⟨"Service", "DeviceAllow", "/dev/fuse rwm"⟩] ∧
    taskConfigToUnitOptions cfgDevScenario = taskConfigToUnitOptions cfgScenario :=
  ⟨rfl, rfl, rfl⟩

/-- Claim C7: the active-state to task-state mapping is exactly the fixed
table — activating/deactivating → unknown, active → running,
inactive/failed → exited, every other string → unknown — and InspectTask
on a unit reporting "failed" yields task-state exited, not unknown. -/
theorem toTaskState_fixed_table :
    toTaskState "activating" = .unknown ∧ toTaskState "deactivating" = .unknown ∧
    toTaskState "active" = .running ∧ toTaskState "inactive" = .exited ∧
    toTaskState "failed" = .exited ∧
    InspectTask wFailedState tasksOne "task1" =
      some (.ok ⟨"webserver@1.service", "task1", .exited⟩) ∧
    ∀ s, s ≠ "activating" → s ≠ "deactivating" → s ≠ "active" → s ≠ "inactive" →
      s ≠ "failed" → toTaskState s = .unknown := by
  refine ⟨rfl, rfl, rfl, rfl, rfl, rfl, ?_⟩
  intro s h1 h2 h3 h4 h5
  unfold toTaskState
  rw [if_neg h1, if_neg h2, if_neg h5, if_neg h3, if_neg h4]

/-- Claim C9: the registry round-trip law — before any Set the lookup is
the not-found signal, immediately after `Set id h` the lookup returns `h`,
immediately after `Delete id` the lookup is not-found again; not-found is
the distinguished `none`, never a default handle. -/
theorem taskStore_roundtrip (id : String) (h : taskHandle) (st : taskStore) :
    newTaskStore.Get id = none ∧
    (st.Set id h).Get id = some h ∧
    (st.Delete id).Get id = none := by
  refine ⟨rfl, ?_, ?_⟩ <;>
    simp [taskStore.Get, taskStore.Set, taskStore.Delete]

/-- A snapshot whose active-state is neither "inactive" nor "failed" is
ignored: the loop continues with the remaining arrivals. -/
theorem waitLoop_skip_nonterminal (u x : String) (l : List WaitEvent)
    (h1 : x ≠ "inactive") (h2 : x ≠ "failed") :
    waitLoop u (statusBatch u x :: l) = waitLoop u l := by
  simp [waitLoop, statusBatch, lookupStatus, h1, h2]

/-- A snapshot whose active-state is "inactive" or "failed" terminates the
loop with the same empty result in both cases. -/
theorem waitLoop_terminal (u s : String) (rest : List WaitEvent)
    (hs : s = "inactive" ∨ s = "failed") :
    waitLoop u (statusBatch u s :: rest) = .emitted ⟨none⟩ := by
  rcases hs with h | h <;> subst h <;>
    simp [waitLoop, statusBatch, lookupStatus]

/-- Claim C3: for a registered task, the stream consumer terminates on the
first snapshot whose active-state is "inactive" or "failed", emitting in
both cases the same empty ExitResult exactly once, after ignoring every
earlier snapshot with any other active-state. -/
theorem waitTask_first_terminal_empty (tasks : taskStore) (taskID : String)
    (h : taskHandle) (tcfg : TaskConfig) (pre : List String) (s : String)
    (rest : List WaitEvent)
    (hreg : tasks.Get taskID = some h)
    (hdec : DecodeDriverConfig h.handle.Config = .ok tcfg)
    (hpre : ∀ x ∈ pre, x ≠ "inactive" ∧ x ≠ "failed")
    (hs : s = "inactive" ∨ s = "failed") :
    WaitTask tasks taskID
      (pre.map (statusBatch tcfg.Unit) ++ statusBatch tcfg.Unit s :: rest) =
      .ok (.emitted ⟨none⟩) := by
  have hloop : ∀ l : List String, (∀ x ∈ l, x ≠ "inactive" ∧ x ≠ "failed") →
      waitLoop tcfg.Unit
        (l.map (statusBatch tcfg.Unit) ++ statusBatch tcfg.Unit s :: rest) =
        .emitted ⟨none⟩ := by
    intro l
    induction l with
    | nil => exact fun _ => waitLoop_terminal _ _ _ hs
    | cons x xs ih =>
      intro hl
      have hx := hl x (List.mem_cons_self _ _)
      rw [List.map_cons, List.cons_append,
        waitLoop_skip_nonterminal _ _ _ hx.1 hx.2]
      exact ih fun y hy => hl y (List.mem_cons_of_mem _ hy)
  simp only [WaitTask, hreg, hdec]
  exact congrArg Except.ok (hloop pre hpre)

/-- Witness for C3 at a concrete input: the registered scenario task, two
non-terminal snapshots then a "failed" snapshot. -/
theorem waitTask_first_terminal_empty_witness :
    tasksOne.Get "task1" = some hOne ∧
    WaitTask tasksOne "task1"
      (["activating", "active"].map (statusBatch "webserver@1.service") ++
        statusBatch "webserver@1.service" "failed" :: []) = .ok (.emitted ⟨none⟩) :=
  ⟨rfl, waitTask_first_terminal_empty tasksOne "task1" hOne ⟨"webserver@1.service"⟩
    ["activating", "active"] "failed" [] rfl rfl (by decide) (Or.inr rfl)⟩

/-- Claim C4: inside InspectTask the result of the synchronous status query
is never checked — the source re-checks the config decode where the query
error should be checked — so a failed query is not returned to the caller:
the code goes on to index the empty status list and panics (the `none`
outcome), where the claim requires the error to be surfaced with no
crash. -/
theorem inspectTask_swallows_query_error :
    wFailQuery.ListUnitsByNames = .error "dbus timeout" ∧
    InspectTask wFailQuery tasksOne "task1" = none :=
  ⟨rfl, rfl⟩

/-- Claim C5, counterexample: the consumer loop does not observe the
driver's global shutdown signal — fed only that signal it runs to
exhaustion without terminating with any result, and it keeps consuming and
delivering events past the shutdown, here terminating on a later
"inactive" snapshot. -/
theorem waitLoop_driver_shutdown_not_observed :
    WaitTask tasksOne "task1" [WaitEvent.driverShutdown] = .ok .exhausted ∧
    WaitTask tasksOne "task1"
      [WaitEvent.driverShutdown, statusBatch "webserver@1.service" "inactive"] =
      .ok (.emitted ⟨none⟩) :=
  ⟨rfl, rfl⟩

/-- Claim C5, amended: the stream-consuming loop observes only the
caller-supplied cancellation signal (and the subscription error channel),
not the driver's global shutdown signal, which it does not wake on;
cancelling the caller's context before any terminal state yields an
ExitResult carrying the cancellation error, after which the loop returns
and no further events are delivered. -/
theorem waitLoop_cancel_and_shutdown_amended (u : String) (rest evts : List WaitEvent) :
    waitLoop u (WaitEvent.cancel :: rest) = .emitted ⟨some "context canceled"⟩ ∧
    waitLoop u (WaitEvent.driverShutdown :: evts) = waitLoop u evts :=
  ⟨rfl, rfl⟩

/-- Claim C6: whenever StartTask returns an error — from the config decode
through directory creation, drop-in write, D-Bus connect, up to and
including the start-unit call — the registry is returned unchanged: no
entry is created for the spec's identifier. -/
theorem startTask_error_leaves_registry (w : StartWorld) (tasks : taskStore)
    (cfg : DriversTaskConfig) (e : String)
    (h : (StartTask w tasks cfg).1 = .error e) :
    (StartTask w tasks cfg).2 = tasks := by
  rcases hd : DecodeDriverConfig cfg with e1 | tc
  · simp [StartTask, hd]
  · rcases hm : w.MkdirAll with e1 | u1
    · simp [StartTask, hd, hm]
    · rcases hc : w.Create with e1 | u2
      · simp [StartTask, hd, hm, hc]
      · rcases hcp : w.Copy with e1 | u3
        · simp [StartTask, hd, hm, hc, hcp]
        · rcases hg : w.GetConn with e1 | u4
          · simp [StartTask, hd, hm, hc, hcp, hg]
          · rcases hst : w.StartUnit with e1 | u5
            · simp [StartTask, hd, hm, hc, hcp, hg, hst]
            · exfalso
              simp [StartTask, hd, hm, hc, hcp, hg, hst] at h

/-- Witness for C6 at a concrete input: a failing drop-in directory
creation leaves the empty registry empty. -/
theorem startTask_error_leaves_registry_witness :
    (StartTask wBadMkdir newTaskStore cfgScenario).1 =
      .error "Failed to write unit file override: disk full" ∧
    (StartTask wBadMkdir newTaskStore cfgScenario).2 = newTaskStore :=
  ⟨rfl, startTask_error_leaves_registry wBadMkdir newTaskStore cfgScenario
    "Failed to write unit file override: disk full" rfl⟩

/-- Claim C8: WaitTask on an identifier absent from the registry returns
the distinct not-found error immediately, whatever the stream would later
deliver — no subscription is consumed and no default value produced. -/
theorem waitTask_unregistered_notfound (tasks : taskStore) (taskID : String)
    (evts : List WaitEvent) (h : tasks.Get taskID = none) :
    WaitTask tasks taskID evts = .error .errTaskNotFound := by
  simp [WaitTask, h]

/-- Witness for C8 at a concrete input: the empty registry. -/
theorem waitTask_unregistered_notfound_witness :
    newTaskStore.Get "nope" = none ∧
    WaitTask newTaskStore "nope" [] = .error .errTaskNotFound :=
  ⟨rfl, waitTask_unregistered_notfound newTaskStore "nope" [] rfl⟩

/-- Claim C10: StartTask with an identifier that already has a registry
entry does not fail on that account — when every external step succeeds it
returns the new handle and the registry afterwards maps the identifier to
the newly built handle and subscription, silently replacing the old
entry. -/
theorem startTask_duplicate_overwrites (w : StartWorld) (tasks : taskStore)
    (cfg : DriversTaskConfig) (h0 : taskHandle) (tcfg : TaskConfig)
    (_hprev : tasks.Get cfg.ID = some h0)
    (hdec : DecodeDriverConfig cfg = .ok tcfg)
    (hm : w.MkdirAll = .ok ()) (hc : w.Create = .ok ()) (hcp : w.Copy = .ok ())
    (hg : w.GetConn = .ok ()) (hst : w.StartUnit = .ok ()) :
    (StartTask w tasks cfg).1 = .ok ⟨0, cfg⟩ ∧
    (StartTask w tasks cfg).2.Get cfg.ID = some ⟨⟨[tcfg.Unit]⟩, ⟨0, cfg⟩⟩ := by
  constructor <;>
    simp [StartTask, hdec, hm, hc, hcp, hg, hst, taskStore.Set, taskStore.Get]

/-- Witness for C10 at a concrete input: a registry already holding an
entry for "task1" ends up holding the freshly built handle for it. -/
theorem startTask_duplicate_overwrites_witness :
    tasksOld.Get "task1" = some hOld ∧
    (StartTask wOk tasksOld cfgScenario).1 = .ok ⟨0, cfgScenario⟩ ∧
    (StartTask wOk tasksOld cfgScenario).2.Get "task1" = some hOne :=
  ⟨rfl,
   (startTask_duplicate_overwrites wOk tasksOld cfgScenario hOld
      ⟨"webserver@1.service"⟩ rfl rfl rfl rfl rfl rfl rfl).1,
   (startTask_duplicate_overwrites wOk tasksOld cfgScenario hOld
      ⟨"webserver@1.service"⟩ rfl rfl rfl rfl rfl rfl rfl).2⟩
